import Mathlib

/-!
Verification development for the crypto-trading-bot repository
(price collector, pair selector, trading engine).

The Go sources are shallowly embedded: `float64` quantities are modelled
as `ℚ` (as `ℝ` only where the source takes a square root), Go `int` as
`ℤ` or `ℕ`, times as integer minutes, nilable pointers as `Option`,
and fallible code as `Except`.  Each definition mirrors one Go function
of the repository; the mirrored file and function are named in its
doc comment.
-/

namespace CryptoBot

/-- Model of Go `math.Round`: round half away from zero, as the Go
`math.Round` does, returning an integer. -/
def goRound (q : ℚ) : ℤ :=
  if q < 0 then -⌊-q + 1/2⌋ else ⌊q + 1/2⌋

/-- `models.Position` (trading-engine/pkg/models): the fields used by the
engine code under verification.  Times are integer minutes. -/
structure Position where
  id : ℕ
  pairID : ℤ
  side : String
  status : String
  quantity : ℚ
  entryPrice : ℚ
  currentPrice : ℚ
  unrealizedPnL : ℚ
  realizedPnL : ℚ
  orderID : String
  closedAt : Option ℤ
  updatedAt : ℤ
  deriving Repr, DecidableEq

/-- `models.Order` (trading-engine/pkg/models): the fields used by the
engine code under verification. -/
structure Order where
  positionID : Option ℕ
  pairID : ℤ
  kucoinOrderID : String
  side : String
  type : String
  quantity : ℚ
  price : ℚ
  filledQuantity : ℚ
  fee : ℚ
  status : String
  createdAt : ℤ
  updatedAt : ℤ
  filledAt : Option ℤ
  deriving Repr, DecidableEq

/-- `trader.EngineConfig`: the engine parameters read by the mirrored code. -/
structure EngineConfig where
  stopLossPercent : ℚ
  takeProfitPercent : ℚ
  maxPositionsPerPair : ℕ
  defaultPositionSize : ℚ
  cbFlashCrashDropPercent : ℚ
  cbFlashCrashWindowMinutes : ℤ
  cbTradingHaltDurationMinutes : ℤ
  deriving Repr, DecidableEq

/-- `models.PricePoint`: one OHLCV sample, restricted to the fields the
mirrored code reads. -/
structure PricePoint where
  timestamp : ℤ
  high : ℚ
  low : ℚ
  close : ℚ
  volume : ℚ
  deriving Repr, DecidableEq

/-- `RiskManager.shouldStopLoss` (trading-engine/internal/trader/risk.go,
lines 235-248): strict comparison of the loss fraction against
`StopLossPercent`. -/
def shouldStopLoss (cfg : EngineConfig) (position : Position) (currentPrice : ℚ) : Bool :=
  if position.status ≠ "open" then false
  else
    let lossPercent : ℚ :=
      if position.side = "buy" then
        (position.entryPrice - currentPrice) / position.entryPrice
      else
        (currentPrice - position.entryPrice) / position.entryPrice
    lossPercent > cfg.stopLossPercent

/-- `RiskManager.shouldTakeProfit` (trading-engine/internal/trader/risk.go,
lines 250-263). -/
def shouldTakeProfit (cfg : EngineConfig) (position : Position) (currentPrice : ℚ) : Bool :=
  if position.status ≠ "open" then false
  else
    let profitPercent : ℚ :=
      if position.side = "buy" then
        (currentPrice - position.entryPrice) / position.entryPrice
      else
        (position.entryPrice - currentPrice) / position.entryPrice
    profitPercent > cfg.takeProfitPercent

/-- `Engine.updatePositionPnL` (trading-engine/internal/trader/position_sizing.go,
lines 1300-1311), without the DB write: refresh `currentPrice` and
`unrealizedPnL` of a position. -/
def updatePositionPnL (position : Position) (currentPrice : ℚ) : Position :=
  { position with
    currentPrice := currentPrice
    unrealizedPnL :=
      if position.side = "buy" then
        (currentPrice - position.entryPrice) * position.quantity
      else
        (position.entryPrice - currentPrice) * position.quantity }

/-- `Engine.closePosition` (trading-engine/internal/trader/position_sizing.go,
lines 1377-1481).  Returns `none` when the position side is unknown (the Go
code returns an error before contacting the exchange); otherwise returns the
updated position together with the market close-order record it creates.
The exchange call itself is external and always assumed to succeed here. -/
def closePosition (now : ℤ) (position : Position) (symbol : String)
    (closePrice : ℚ) (reason : String) : Option (Position × Order) :=
  if position.side ≠ "buy" ∧ position.side ≠ "sell" then none
  else
    let orderSide : String := if position.side = "buy" then "sell" else "buy"
    let realized : ℚ :=
      if position.side = "buy" then (closePrice - position.entryPrice) * position.quantity
      else (position.entryPrice - closePrice) * position.quantity
    let updatedPosition : Position :=
      { position with
        status := reason
        closedAt := some now
        realizedPnL := realized
        unrealizedPnL := 0 }
    let closeOrder : Order :=
      { positionID := some position.id
        pairID := position.pairID
        kucoinOrderID := symbol ++ "-close"
        side := orderSide
        type := "market"
        quantity := position.quantity
        price := closePrice
        filledQuantity := position.quantity
        fee := 0
        status := "filled"
        createdAt := now
        updatedAt := now
        filledAt := some now }
    some (updatedPosition, closeOrder)

/-- `Engine.executeSellOrder` (trading-engine/internal/trader/position_sizing.go,
lines 1483-1511), without the DB write: the position is marked `closed` with
`closedAt` set and `realizedPnL := unrealizedPnL`; a pending limit sell order
record is created.  Note the Go code does not reset `UnrealizedPnL`. -/
def executeSellOrder (now : ℤ) (pairSymbol : String) (pairID : ℤ)
    (position : Position) (price : ℚ) : Position × Order :=
  let updatedPosition : Position :=
    { position with
      status := "closed"
      closedAt := some now
      realizedPnL := position.unrealizedPnL }
  let order : Order :=
    { positionID := some position.id
      pairID := pairID
      kucoinOrderID := pairSymbol ++ "-sell"
      side := "sell"
      type := "limit"
      quantity := position.quantity
      price := price
      filledQuantity := 0
      fee := 0
      status := "pending"
      createdAt := now
      updatedAt := now
      filledAt := none }
  (updatedPosition, order)

/-- The stop-loss / take-profit sweep of `Engine.processPair`
(trading-engine/internal/trader/position_sizing.go, lines 1217-1258): every
open position whose stop-loss or take-profit condition holds is closed via
`closePosition` (a failed close drops the position from the surviving list,
as the Go loop `continue`s either way); the rest survive.
Returns (surviving positions, closures with their market order records). -/
def sltpSweep (cfg : EngineConfig) (now : ℤ) (symbol : String)
    (currentPrice : ℚ) : List Position → List Position × List (Position × Order)
  | [] => ([], [])
  | pos :: rest =>
    let (surviving, closed) := sltpSweep cfg now symbol currentPrice rest
    if shouldStopLoss cfg pos currentPrice then
      match closePosition now pos symbol currentPrice "closed_stoploss" with
      | some result => (surviving, result :: closed)
      | none => (surviving, closed)
    else if shouldTakeProfit cfg pos currentPrice then
      match closePosition now pos symbol currentPrice "closed_takeprofit" with
      | some result => (surviving, result :: closed)
      | none => (surviving, closed)
    else (pos :: surviving, closed)

/-- `RiskManager.calculateTotalExposure` (trading-engine/internal/trader/risk.go,
lines 222-233). -/
def calculateTotalExposure (positions : List Position) (currentPrice : ℚ) : ℚ :=
  positions.foldl
    (fun total position =>
      if position.status = "open" then total + position.quantity * currentPrice
      else total) 0

/-- `RiskManager.CanTrade` (trading-engine/internal/trader/risk.go,
lines 179-220). -/
def canTrade (cfg : EngineConfig) (positions : List Position) (currentPrice : ℚ) : Bool :=
  if positions.length ≥ cfg.maxPositionsPerPair then false
  else if calculateTotalExposure positions currentPrice >
      (cfg.maxPositionsPerPair : ℚ) * cfg.defaultPositionSize then false
  else true

/-- `models.Signal` (trading-engine/pkg/models), restricted to the fields the
mirrored code sets and reads. -/
structure Signal where
  symbol : String
  action : String
  price : ℚ
  strength : ℚ
  reason : String
  deriving Repr, DecidableEq

/-- The per-symbol flash-crash halt state of `trader.RiskManager`
(`pairFlashCrashHaltedUntil` map), modelled as a total function from symbol
to the optional halt deadline (in minutes). -/
structure RiskState where
  flashHaltedUntil : String → Option ℤ

/-- The window-maximum loop of `RiskManager.CheckFlashCrash`
(trading-engine/internal/trader/risk.go, lines 132-141): the largest close
in the fetched window, scanning from 0. -/
def maxCloseInWindow (priceHistory : List PricePoint) : ℚ :=
  priceHistory.foldl (fun m p => if p.close > m then p.close else m) 0

/-- The body of `RiskManager.CheckFlashCrash`
(trading-engine/internal/trader/risk.go, lines 112-176), after the active-halt
lookup: breaker-enabled check, price-history emptiness check, window maximum,
drop percentage, and halt-deadline installation. -/
def checkFlashCrashBody (cfg : EngineConfig) (st : RiskState) (now : ℤ)
    (pairSymbol : String) (priceHistory : List PricePoint) (currentPrice : ℚ) :
    Bool × RiskState :=
  if cfg.cbFlashCrashDropPercent ≤ 0 ∨ cfg.cbFlashCrashWindowMinutes ≤ 0 then
    (false, st)
  else if priceHistory.length = 0 then (false, st)
  else
    let maxPriceInWindow : ℚ := maxCloseInWindow priceHistory
    if maxPriceInWindow = 0 then (false, st)
    else
      let dropPercent : ℚ := (maxPriceInWindow - currentPrice) / maxPriceInWindow * 100
      if dropPercent ≥ cfg.cbFlashCrashDropPercent then
        (true,
          { flashHaltedUntil := fun s =>
              if s = pairSymbol then some (now + cfg.cbTradingHaltDurationMinutes)
              else st.flashHaltedUntil s })
      else (false, st)

/-- `RiskManager.CheckFlashCrash` (trading-engine/internal/trader/risk.go,
lines 96-177).  An active per-symbol halt deadline (current time strictly
before it) short-circuits to halted; an expired one (current time strictly
after it) is removed before the drop check.  The price history for the
configured window is supplied by the caller (the Go code fetches it from the
repository). -/
def checkFlashCrash (cfg : EngineConfig) (st : RiskState) (now : ℤ)
    (pairSymbol : String) (priceHistory : List PricePoint) (currentPrice : ℚ) :
    Bool × RiskState :=
  match st.flashHaltedUntil pairSymbol with
  | some haltTime =>
    if now < haltTime then (true, st)
    else
      let st1 : RiskState :=
        if haltTime < now then
          { flashHaltedUntil := fun s =>
              if s = pairSymbol then none else st.flashHaltedUntil s }
        else st
      checkFlashCrashBody cfg st1 now pairSymbol priceHistory currentPrice
  | none => checkFlashCrashBody cfg st now pairSymbol priceHistory currentPrice

/-- Result of processing one pair in a trading tick: the updated circuit
breaker state, whether a signal was generated, every exchange order record
the engine created for this pair during the tick (SL/TP market closes and
strategy orders), and the surviving open positions. -/
structure ProcessPairResult where
  newState : RiskState
  signalGenerated : Bool
  ordersPlaced : List Order
  surviving : List Position

/-- `Engine.processPair` (trading-engine/internal/trader/position_sizing.go,
lines 1162-1274): flash-crash gate, then signal generation, PnL refresh,
SL/TP sweep, `CanTrade` risk gate, and strategy dispatch, in the source's
order.  Signal generation and the strategy executors are passed as functions
(`signalOf` models `signalGenerator.GenerateSignal` at the current price;
`strategy` models the grid/basic executor's order placements on the surviving
positions). -/
def processPair (cfg : EngineConfig) (st : RiskState) (now : ℤ)
    (pairSymbol : String) (priceHistory : List PricePoint) (currentPrice : ℚ)
    (positions : List Position) (signalOf : ℚ → Signal)
    (strategy : Signal → List Position → List Order) : ProcessPairResult :=
  let flashCheck := checkFlashCrash cfg st now pairSymbol priceHistory currentPrice
  if flashCheck.1 then
    { newState := flashCheck.2
      signalGenerated := false
      ordersPlaced := []
      surviving := positions }
  else
    let signal := signalOf currentPrice
    let updated := positions.map (fun p => updatePositionPnL p currentPrice)
    let sweep := sltpSweep cfg now pairSymbol currentPrice updated
    let closeOrders := sweep.2.map (fun r => r.2)
    if ¬ canTrade cfg sweep.1 currentPrice then
      { newState := flashCheck.2
        signalGenerated := true
        ordersPlaced := closeOrders
        surviving := sweep.1 }
    else
      { newState := flashCheck.2
        signalGenerated := true
        ordersPlaced := closeOrders ++ strategy signal sweep.1
        surviving := sweep.1 }

/-- The order-status payload returned by the exchange for one order
(`GetOrderStatus` response: status, cumulative filled size `dealSize`,
price, fee). -/
structure ExchangeOrderDetail where
  status : String
  dealSize : ℚ
  price : ℚ
  fee : ℚ
  deriving Repr, DecidableEq

/-- The position mutation of one reconciliation step
(`Engine.synchronizeOrderStatuses`, trading-engine/internal/trader/
position_sizing.go, lines 502-590), given the already-updated local order. -/
def syncPositionUpdate (now : ℤ) (localOrder : Order)
    (detail : ExchangeOrderDetail) (position : Position) : Position :=
  if detail.status = "filled" then
    if position.status = "open_pending" then
      { position with
        status := "open"
        entryPrice := detail.price
        quantity := detail.dealSize
        updatedAt := now }
    else if position.status = "open" ∧ localOrder.side ≠ position.side then
      if detail.dealSize ≥ position.quantity then
        { position with status := "closed", closedAt := some now, updatedAt := now }
      else
        { position with quantity := position.quantity - detail.dealSize, updatedAt := now }
    else position
  else if detail.status = "partially_filled" then
    if position.status = "open_pending" then
      { position with
        status := "open"
        entryPrice := detail.price
        quantity := detail.dealSize
        updatedAt := now }
    else position
  else if detail.status = "canceled" ∧ localOrder.filledQuantity > 0 then
    if position.status = "open_pending" ∧ localOrder.filledQuantity > 0 then
      { position with
        status := "open"
        entryPrice := detail.price
        quantity := localOrder.filledQuantity
        updatedAt := now }
    else if position.status = "open" ∧ localOrder.side ≠ position.side then
      { position with updatedAt := now }
    else position
  else position

/-- The local-order mutation of one reconciliation step
(`Engine.synchronizeOrderStatuses`, trading-engine/internal/trader/
position_sizing.go, lines 442-483): align status, filled quantity and fee
with the exchange report, and stamp `updatedAt`/`filledAt` on terminal
reports. -/
def syncOrderLocal (now : ℤ) (localOrder : Order) (detail : ExchangeOrderDetail) : Order :=
  let o1 := if localOrder.status ≠ detail.status
    then { localOrder with status := detail.status } else localOrder
  let o2 := if o1.filledQuantity ≠ detail.dealSize
    then { o1 with filledQuantity := detail.dealSize } else o1
  let o3 := if detail.fee > 0 ∧ o2.fee ≠ detail.fee
    then { o2 with fee := detail.fee } else o2
  if detail.status = "filled" ∨ detail.status = "canceled" ∨ detail.status = "rejected" then
    let oTimed := { o3 with updatedAt := now }
    if oTimed.filledAt = none ∧
        (detail.status = "filled" ∨ (detail.status = "canceled" ∧ oTimed.filledQuantity > 0)) then
      { oTimed with filledAt := some now }
    else oTimed
  else o3

/-- One reconciliation step of `Engine.synchronizeOrderStatuses`
(trading-engine/internal/trader/position_sizing.go, lines 442-591) for a
single non-final local order: align the local order with the exchange
report via `syncOrderLocal`, and mutate the linked position when the order
is filled, partially filled, or canceled-after-partial-fill.  A missing
linked position rolls the whole transaction back (both records
unchanged). -/
def syncOrderStep (now : ℤ) (localOrder : Order) (detail : ExchangeOrderDetail)
    (position : Option Position) : Order × Option Position :=
  let o4 := syncOrderLocal now localOrder detail
  if (detail.status = "filled" ∨ detail.status = "partially_filled" ∨
      (detail.status = "canceled" ∧ o4.filledQuantity > 0)) ∧ o4.positionID ≠ none then
    match position with
    | none => (localOrder, none)
    | some p => (o4, some (syncPositionUpdate now o4 detail p))
  else (o4, position)

/-- `models.PairAnalysis` (pair-selector/pkg/models), restricted to the
fields the mirrored selector code reads. -/
structure PairAnalysis where
  symbol : String
  riskLevel : String
  finalScore : ℚ
  volumeScore : ℚ
  volatilityScore : ℚ
  atrScore : ℚ
  correlationScore : ℚ
  deriving Repr, DecidableEq

/-- `models.SelectionCriteria` (pair-selector/pkg/models): the scoring
weights read by `CalculateFinalScore`. -/
structure SelectionCriteria where
  volumeWeight : ℚ
  volatilityWeight : ℚ
  atrWeight : ℚ
  correlationWeight : ℚ
  deriving Repr, DecidableEq

/-- `Scorer.CalculateFinalScore` (pair-selector/internal/selector/scorer.go,
lines 96-111): weighted sum of the four sub-scores, clamped to [0, 1]. -/
def calculateFinalScore (analysis : PairAnalysis) (criteria : SelectionCriteria) : ℚ :=
  let finalScore :=
    analysis.volumeScore * criteria.volumeWeight +
    analysis.volatilityScore * criteria.volatilityWeight +
    analysis.atrScore * criteria.atrWeight +
    analysis.correlationScore * criteria.correlationWeight
  if finalScore > 1 then 1
  else if finalScore < 0 then 0
  else finalScore

/-- The fill-remaining-slots loop of `Analyzer.SelectTopPairs`
(pair-selector/internal/selector/analyzer.go, lines 312-333): walk the
ranked analyses, appending any pair whose symbol is not already selected,
until `maxPairs` entries are selected. -/
def topUp : List PairAnalysis → List PairAnalysis → ℕ → List PairAnalysis
  | [], selected, _ => selected
  | a :: rest, selected, maxPairs =>
    if maxPairs ≤ selected.length then selected
    else if a.symbol ∈ selected.map (fun s => s.symbol) then topUp rest selected maxPairs
    else topUp rest (selected ++ [a]) maxPairs

/-- The risk-bucket phase of `Analyzer.SelectTopPairs`
(pair-selector/internal/selector/analyzer.go, lines 275-310): partition by
risk level and take `maxPairs/3` slots for low and medium risk and the
remainder for high risk, each bucket in ranked order. -/
def bucketSelection (analyses : List PairAnalysis) (maxPairs : ℕ) : List PairAnalysis :=
  let lowRisk := analyses.filter (fun a => a.riskLevel = "low")
  let mediumRisk := analyses.filter (fun a => a.riskLevel = "medium")
  let highRisk := analyses.filter (fun a => a.riskLevel = "high")
  let lowCount := maxPairs / 3
  let mediumCount := maxPairs / 3
  let highCount := maxPairs - lowCount - mediumCount
  lowRisk.take lowCount ++ mediumRisk.take mediumCount ++ highRisk.take highCount

/-- `Analyzer.SelectTopPairs` (pair-selector/internal/selector/analyzer.go,
lines 269-344): if there are at most `maxPairs` analyses return them all;
otherwise fill risk buckets and top the selection up from the overall
ranked list without duplicating symbols. -/
def selectTopPairs (analyses : List PairAnalysis) (maxPairs : ℕ) : List PairAnalysis :=
  if analyses.length ≤ maxPairs then analyses
  else topUp analyses (bucketSelection analyses maxPairs) maxPairs

/-- A Go `float64` input value: NaN, an infinity, or a finite value
(finite values modelled exactly as rationals). -/
inductive GoFloat where
  | nan : GoFloat
  | inf : Bool → GoFloat
  | finite : ℚ → GoFloat
  deriving Repr, DecidableEq

/-- The shared finite-value body of the collector's field normalizers
(price-collector/internal/collector/processor.go): split off the sign, cap
the magnitude at `maxValue`, otherwise round to the field precision
(`mult` = 10^precision). -/
def signedCapRound (maxValue mult value : ℚ) : ℚ :=
  let sign : ℚ := if value < 0 then -1 else 1
  let v : ℚ := if value < 0 then -value else value
  if v > maxValue then maxValue * sign
  else (goRound (v * mult) : ℚ) / mult * sign

/-- `Processor.normalizePriceField` (price-collector/internal/collector/
processor.go, lines 206-234): NaN/Inf to 0, cap magnitude at
999999999999, round to 8 decimal places. -/
def normalizePriceField : GoFloat → ℚ
  | GoFloat.nan => 0
  | GoFloat.inf _ => 0
  | GoFloat.finite value => signedCapRound 999999999999 100000000 value

/-- `Processor.normalizeChangeRateField` (price-collector/internal/collector/
processor.go, lines 261-289): NaN/Inf to 0, cap magnitude at 9999, round
to 6 decimal places. -/
def normalizeChangeRateField : GoFloat → ℚ
  | GoFloat.nan => 0
  | GoFloat.inf _ => 0
  | GoFloat.finite value => signedCapRound 9999 1000000 value

/-- `utils.CalculateCorrelation` (shared utils, src/unnamed/part_020,
lines 79-110): Pearson correlation of two equal-length series, with the
source's early returns (length mismatch or empty input, and zero centered
denominators, give 0).  The index loops `for i < len(x)` are mirrored as
sums over `Finset.range x.length` with `getD i 0` access. -/
noncomputable def calculateCorrelation (x y : List ℝ) : ℝ :=
  if x.length ≠ y.length ∨ x.length = 0 then 0
  else
    let n : ℝ := (x.length : ℝ)
    let sumX : ℝ := ∑ i in Finset.range x.length, x.getD i 0
    let sumY : ℝ := ∑ i in Finset.range x.length, y.getD i 0
    let meanX := sumX / n
    let meanY := sumY / n
    let numerator : ℝ :=
      ∑ i in Finset.range x.length, (x.getD i 0 - meanX) * (y.getD i 0 - meanY)
    let denomX : ℝ :=
      ∑ i in Finset.range x.length, (x.getD i 0 - meanX) * (x.getD i 0 - meanX)
    let denomY : ℝ :=
      ∑ i in Finset.range x.length, (y.getD i 0 - meanY) * (y.getD i 0 - meanY)
    if denomX = 0 ∨ denomY = 0 then 0
    else numerator / Real.sqrt (denomX * denomY)

/-- `signals.Generator` configuration (trading-engine signals package,
src/unnamed/part_013): indicator periods, data-fetch parameters, signal
thresholds and weights. -/
structure GeneratorCfg where
  rsiPeriod : ℤ
  macdFastPeriod : ℤ
  macdSlowPeriod : ℤ
  macdSignalPeriod : ℤ
  emaShortPeriod : ℤ
  emaLongPeriod : ℤ
  volumeAvgPeriod : ℤ
  priceHistoryCandles : ℤ
  priceDataIntervalMinutes : ℤ
  rsiOversold : ℚ
  rsiOverbought : ℚ
  volumeConfirmationRatio : ℚ
  buyThreshold : ℚ
  sellThreshold : ℚ
  rsiWeight : ℚ
  macdWeight : ℚ
  emaTrendWeight : ℚ
  volumeConfirmWeight : ℚ
  marketDominanceFactor : ℚ
  deriving Repr, DecidableEq

/-- `signals.NewGenerator` (src/unnamed/part_013, lines 104-199): every
numeric parameter passed as its zero value is replaced by the built-in
default.  The Go code initialises all fields to the defaults and then
overwrites each field from its parameter when the parameter is non-zero;
since every conditional touches a distinct field, this is recorded here
field by field. -/
def newGenerator
    (rsiPeriod macdFastPeriod macdSlowPeriod macdSignalPeriod : ℤ)
    (emaShortPeriod emaLongPeriod volumeAvgPeriod : ℤ)
    (priceHistoryCandles priceDataIntervalMinutes : ℤ)
    (rsiOversold rsiOverbought : ℚ)
    (volumeConfirmationRatio : ℚ)
    (buyThreshold sellThreshold : ℚ)
    (rsiWeight macdWeight emaTrendWeight volumeConfirmWeight : ℚ)
    (marketDominanceFactor : ℚ) : GeneratorCfg :=
  { rsiPeriod := if rsiPeriod ≠ 0 then rsiPeriod else 14
    macdFastPeriod := if macdFastPeriod ≠ 0 then macdFastPeriod else 12
    macdSlowPeriod := if macdSlowPeriod ≠ 0 then macdSlowPeriod else 26
    macdSignalPeriod := if macdSignalPeriod ≠ 0 then macdSignalPeriod else 9
    emaShortPeriod := if emaShortPeriod ≠ 0 then emaShortPeriod else 20
    emaLongPeriod := if emaLongPeriod ≠ 0 then emaLongPeriod else 50
    volumeAvgPeriod := if volumeAvgPeriod ≠ 0 then volumeAvgPeriod else 20
    priceHistoryCandles := if priceHistoryCandles ≠ 0 then priceHistoryCandles else 100
    priceDataIntervalMinutes := if priceDataIntervalMinutes ≠ 0 then priceDataIntervalMinutes else 60
    rsiOversold := if rsiOversold ≠ 0 then rsiOversold else 30
    rsiOverbought := if rsiOverbought ≠ 0 then rsiOverbought else 70
    volumeConfirmationRatio := if volumeConfirmationRatio ≠ 0 then volumeConfirmationRatio else 3/2
    buyThreshold := if buyThreshold ≠ 0 then buyThreshold else 3/10
    sellThreshold := if sellThreshold ≠ 0 then sellThreshold else -3/10
    rsiWeight := if rsiWeight ≠ 0 then rsiWeight else 3/10
    macdWeight := if macdWeight ≠ 0 then macdWeight else 1/4
    emaTrendWeight := if emaTrendWeight ≠ 0 then emaTrendWeight else 1/4
    volumeConfirmWeight := if volumeConfirmWeight ≠ 0 then volumeConfirmWeight else 1/5
    marketDominanceFactor := if marketDominanceFactor ≠ 0 then marketDominanceFactor else 3/2 }

/-- `signals.TechnicalIndicators` (src/unnamed/part_013). -/
structure TechnicalIndicators where
  rsi : ℚ
  macd : ℚ
  macdSignal : ℚ
  bollingerUp : ℚ
  bollingerLow : ℚ
  ema20 : ℚ
  ema50 : ℚ
  volume : ℚ
  avgVolume : ℚ
  deriving Repr, DecidableEq

/-- The minimum history length demanded by
`Generator.CalculateTechnicalIndicators` (src/unnamed/part_013,
lines 373-377): the longest of the long-EMA and slow-MACD periods,
plus a 5-candle buffer for TA-Lib initialisation. -/
def requiredPoints (g : GeneratorCfg) : ℤ :=
  (if g.macdSlowPeriod > g.emaLongPeriod then g.macdSlowPeriod else g.emaLongPeriod) + 5

/-- `Generator.CalculateTechnicalIndicators` (src/unnamed/part_013,
lines 350-453): fail when the fetched history is shorter than
`requiredPoints`; otherwise run the TA-Lib indicator stage.  The TA-Lib
computations themselves are external library calls and are abstracted as
the `talibStage` function (which may itself fail, as when all TA-Lib
outputs are NaN). -/
def calculateTechnicalIndicators (g : GeneratorCfg)
    (talibStage : List PricePoint → Except String TechnicalIndicators)
    (priceHistory : List PricePoint) : Except String TechnicalIndicators :=
  if (priceHistory.length : ℤ) < requiredPoints g then
    Except.error "not enough historical data"
  else talibStage priceHistory

/-- `Generator.GenerateSignal` (src/unnamed/part_013, lines 201-338), as a
function of the indicator-computation result: an error yields the HOLD
signal of strength 0.1; otherwise the multi-factor score decides the
action and strength. -/
def generateSignal (g : GeneratorCfg) (symbol : String) (currentPrice : ℚ)
    (indicatorsResult : Except String TechnicalIndicators) : Signal :=
  match indicatorsResult with
  | Except.error _ =>
    { symbol := symbol
      action := "HOLD"
      price := currentPrice
      strength := 1/10
      reason := "Error calculating indicators" }
  | Except.ok indicators =>
    let s0 : ℚ := 0
    let s1 : ℚ :=
      if indicators.rsi < g.rsiOversold ∧ indicators.rsi ≠ 0 then s0 + g.rsiWeight
      else if indicators.rsi > g.rsiOverbought then s0 - g.rsiWeight
      else s0
    let s2 : ℚ :=
      if indicators.macd > indicators.macdSignal ∧ indicators.macd ≠ 0 ∧ indicators.macdSignal ≠ 0 then
        s1 + g.macdWeight
      else if indicators.macd < indicators.macdSignal ∧ indicators.macd ≠ 0 ∧ indicators.macdSignal ≠ 0 then
        s1 - g.macdWeight
      else s1
    let s3 : ℚ :=
      if indicators.ema20 > indicators.ema50 ∧ indicators.ema20 ≠ 0 ∧ indicators.ema50 ≠ 0 then
        s2 + g.emaTrendWeight
      else if indicators.ema20 < indicators.ema50 ∧ indicators.ema20 ≠ 0 ∧ indicators.ema50 ≠ 0 then
        s2 - g.emaTrendWeight
      else s2
    let signalScore : ℚ :=
      if indicators.avgVolume > 0 then
        let volumeRatio := indicators.volume / indicators.avgVolume
        if volumeRatio > g.volumeConfirmationRatio then
          if s3 > 1/20 then s3 + g.volumeConfirmWeight
          else if s3 < -(1/20) then s3 - g.volumeConfirmWeight
          else s3
        else s3
      else s3
    if signalScore > g.buyThreshold then
      { symbol := symbol
        action := "BUY"
        price := currentPrice
        strength := min (1/2 + (signalScore - g.buyThreshold) * (1/2)) 1
        reason := "technical analysis" }
    else if signalScore < g.sellThreshold then
      { symbol := symbol
        action := "SELL"
        price := currentPrice
        strength := min (1/2 + (|signalScore| - |g.sellThreshold|) * (1/2)) 1
        reason := "technical analysis" }
    else
      { symbol := symbol
        action := "HOLD"
        price := currentPrice
        strength := 1/2
        reason := "neutral market conditions" }

/-! ## Theorems -/

/-- C9: For every pair analysis (any sub-score values) and every set of
weights, the final selection score computed as the weighted sum of volume,
volatility, ATR and correlation sub-scores lies in the closed interval
[0, 1] (the source clamps, so this holds in particular for weights summing
to at most 1). -/
theorem calculateFinalScore_mem_unitInterval (analysis : PairAnalysis)
    (criteria : SelectionCriteria) :
    0 ≤ calculateFinalScore analysis criteria ∧ calculateFinalScore analysis criteria ≤ 1 := by
  unfold calculateFinalScore
  dsimp only
  split_ifs with h1 h2
  · exact ⟨zero_le_one, le_refl 1⟩
  · exact ⟨le_refl 0, zero_le_one⟩
  · exact ⟨le_of_not_lt h2, le_of_not_lt h1⟩

/-- C2 (code bug witness): `executeSellOrder` moves a position into the
terminal status `closed` and sets `closedAt`, but leaves `unrealizedPnL`
at its prior non-zero value, violating the terminal-state invariant
`unrealized_pnl = 0`.  Concretely, a buy position with entry 100 and
quantity 1 at current price 105 (unrealized PnL 5) is closed with
`unrealizedPnL` still 5. -/
theorem executeSellOrder_terminal_keeps_unrealizedPnL :
    (executeSellOrder 7 "BTC-USDT" 1
      { id := 1, pairID := 1, side := "buy", status := "open", quantity := 1,
        entryPrice := 100, currentPrice := 105, unrealizedPnL := 5,
        realizedPnL := 0, orderID := "o", closedAt := none, updatedAt := 0 } 105).1.status
        = "closed" ∧
    (executeSellOrder 7 "BTC-USDT" 1
      { id := 1, pairID := 1, side := "buy", status := "open", quantity := 1,
        entryPrice := 100, currentPrice := 105, unrealizedPnL := 5,
        realizedPnL := 0, orderID := "o", closedAt := none, updatedAt := 0 } 105).1.closedAt
        = some 7 ∧
    (executeSellOrder 7 "BTC-USDT" 1
      { id := 1, pairID := 1, side := "buy", status := "open", quantity := 1,
        entryPrice := 100, currentPrice := 105, unrealizedPnL := 5,
        realizedPnL := 0, orderID := "o", closedAt := none, updatedAt := 0 } 105).1.unrealizedPnL
        = 5 ∧
    (executeSellOrder 7 "BTC-USDT" 1
      { id := 1, pairID := 1, side := "buy", status := "open", quantity := 1,
        entryPrice := 100, currentPrice := 105, unrealizedPnL := 5,
        realizedPnL := 0, orderID := "o", closedAt := none, updatedAt := 0 } 105).1.unrealizedPnL
        ≠ 0 := by
  refine ⟨rfl, rfl, rfl, ?_⟩
  norm_num [executeSellOrder]

/-- C10: every numeric parameter of `NewGenerator` passed as zero is
replaced by its built-in default; consequently the resulting thresholds
and weights are never exactly zero (a caller requesting
`sellThreshold = 0` gets the default -0.3, and a zero weight gets that
weight's non-zero default). -/
theorem newGenerator_zero_params_use_defaults
    (p1 p2 p3 p4 p5 p6 p7 p8 p9 : ℤ) (q1 q2 q3 q4 q5 q6 q7 q8 q9 q10 : ℚ)
    (g : GeneratorCfg)
    (hg : g = newGenerator p1 p2 p3 p4 p5 p6 p7 p8 p9 q1 q2 q3 q4 q5 q6 q7 q8 q9 q10) :
    (p1 = 0 → g.rsiPeriod = 14) ∧ (p2 = 0 → g.macdFastPeriod = 12) ∧
    (p3 = 0 → g.macdSlowPeriod = 26) ∧ (p4 = 0 → g.macdSignalPeriod = 9) ∧
    (p5 = 0 → g.emaShortPeriod = 20) ∧ (p6 = 0 → g.emaLongPeriod = 50) ∧
    (p7 = 0 → g.volumeAvgPeriod = 20) ∧ (p8 = 0 → g.priceHistoryCandles = 100) ∧
    (p9 = 0 → g.priceDataIntervalMinutes = 60) ∧
    (q1 = 0 → g.rsiOversold = 30) ∧ (q2 = 0 → g.rsiOverbought = 70) ∧
    (q3 = 0 → g.volumeConfirmationRatio = 3/2) ∧
    (q4 = 0 → g.buyThreshold = 3/10) ∧ (q5 = 0 → g.sellThreshold = -3/10) ∧
    (q6 = 0 → g.rsiWeight = 3/10) ∧ (q7 = 0 → g.macdWeight = 1/4) ∧
    (q8 = 0 → g.emaTrendWeight = 1/4) ∧ (q9 = 0 → g.volumeConfirmWeight = 1/5) ∧
    (q10 = 0 → g.marketDominanceFactor = 3/2) ∧
    g.buyThreshold ≠ 0 ∧ g.sellThreshold ≠ 0 ∧ g.rsiWeight ≠ 0 ∧
    g.macdWeight ≠ 0 ∧ g.emaTrendWeight ≠ 0 ∧ g.volumeConfirmWeight ≠ 0 := by
  subst hg
  refine ⟨?_, ?_, ?_, ?_, ?_, ?_, ?_, ?_, ?_, ?_, ?_, ?_, ?_, ?_, ?_, ?_, ?_, ?_, ?_,
    ?_, ?_, ?_, ?_, ?_, ?_⟩
  · intro h; simp [newGenerator, h]
  · intro h; simp [newGenerator, h]
  · intro h; simp [newGenerator, h]
  · intro h; simp [newGenerator, h]
  · intro h; simp [newGenerator, h]
  · intro h; simp [newGenerator, h]
  · intro h; simp [newGenerator, h]
  · intro h; simp [newGenerator, h]
  · intro h; simp [newGenerator, h]
  · intro h; simp [newGenerator, h]
  · intro h; simp [newGenerator, h]
  · intro h; simp [newGenerator, h]
  · intro h; simp [newGenerator, h]
  · intro h; simp [newGenerator, h]
  · intro h; simp [newGenerator, h]
  · intro h; simp [newGenerator, h]
  · intro h; simp [newGenerator, h]
  · intro h; simp [newGenerator, h]
  · intro h; simp [newGenerator, h]
  · by_cases h : q4 = 0 <;> simp [newGenerator, h]
  · by_cases h : q5 = 0 <;> simp [newGenerator, h]
  · by_cases h : q6 = 0 <;> simp [newGenerator, h]
  · by_cases h : q7 = 0 <;> simp [newGenerator, h]
  · by_cases h : q8 = 0 <;> simp [newGenerator, h]
  · by_cases h : q9 = 0 <;> simp [newGenerator, h]

/-- C10 witness: instantiating `NewGenerator` with every numeric parameter
zero yields the documented defaults, in particular `sellThreshold = -0.3`
and all weights non-zero. -/
theorem newGenerator_zero_params_use_defaults_witness :
    (newGenerator 0 0 0 0 0 0 0 0 0 0 0 0 0 0 0 0 0 0 0).sellThreshold = -3/10 ∧
    (newGenerator 0 0 0 0 0 0 0 0 0 0 0 0 0 0 0 0 0 0 0).rsiWeight ≠ 0 := by
  have h := newGenerator_zero_params_use_defaults 0 0 0 0 0 0 0 0 0 0 0 0 0 0 0 0 0 0 0
    (newGenerator 0 0 0 0 0 0 0 0 0 0 0 0 0 0 0 0 0 0 0) rfl
  exact ⟨h.2.2.2.2.2.2.2.2.2.2.2.2.2.1 rfl, h.2.2.2.2.2.2.2.2.2.2.2.2.2.2.2.2.2.2.2.2.2.1⟩

/-- C6: whenever indicator computation fails — in particular whenever the
fetched price history has fewer points than the required longest period plus
buffer — `GenerateSignal` returns a signal with action HOLD and low strength
(0.1); it never returns BUY or SELL in that case. -/
theorem generateSignal_error_yields_hold (g : GeneratorCfg) (symbol : String) (price : ℚ) :
    (∀ e, (generateSignal g symbol price (Except.error e)).action = "HOLD" ∧
      (generateSignal g symbol price (Except.error e)).strength = 1/10) ∧
    (∀ talibStage priceHistory, (priceHistory.length : ℤ) < requiredPoints g →
      (generateSignal g symbol price
        (calculateTechnicalIndicators g talibStage priceHistory)).action = "HOLD" ∧
      (generateSignal g symbol price
        (calculateTechnicalIndicators g talibStage priceHistory)).strength = 1/10) := by
  constructor
  · intro e; exact ⟨rfl, rfl⟩
  · intro talibStage priceHistory h
    unfold calculateTechnicalIndicators
    rw [if_pos h]
    exact ⟨rfl, rfl⟩

/-- C6 witness: with the default generator configuration the empty price
history is insufficient (0 < 55 required points), and the resulting signal
is HOLD with strength 0.1. -/
theorem generateSignal_error_yields_hold_witness :
    (generateSignal (newGenerator 0 0 0 0 0 0 0 0 0 0 0 0 0 0 0 0 0 0 0) "BTC-USDT" 100
      (calculateTechnicalIndicators (newGenerator 0 0 0 0 0 0 0 0 0 0 0 0 0 0 0 0 0 0 0)
        (fun _ => Except.error "talib") [])).action = "HOLD" :=
  ((generateSignal_error_yields_hold (newGenerator 0 0 0 0 0 0 0 0 0 0 0 0 0 0 0 0 0 0 0)
    "BTC-USDT" 100).2 (fun _ => Except.error "talib") []
      (by norm_num [requiredPoints, newGenerator])).1

/-- C1 counterexample: for a buy position with entry price 100 and a 5%
stop-loss, the price exactly at the stop-loss boundary
(95 = 100·(1 − 0.05)) does NOT trigger the stop-loss: `shouldStopLoss`
compares strictly, and the SL/TP sweep of `processPair` leaves the position
open rather than closing it. -/
theorem stopLoss_threshold_price_not_triggered :
    (95 : ℚ) = 100 * (1 - 5/100) ∧
    shouldStopLoss
      { stopLossPercent := 5/100, takeProfitPercent := 1/10, maxPositionsPerPair := 3,
        defaultPositionSize := 100, cbFlashCrashDropPercent := 15,
        cbFlashCrashWindowMinutes := 5, cbTradingHaltDurationMinutes := 60 }
      { id := 1, pairID := 1, side := "buy", status := "open", quantity := 1,
        entryPrice := 100, currentPrice := 95, unrealizedPnL := -5,
        realizedPnL := 0, orderID := "o", closedAt := none, updatedAt := 0 } 95 = false ∧
    sltpSweep
      { stopLossPercent := 5/100, takeProfitPercent := 1/10, maxPositionsPerPair := 3,
        defaultPositionSize := 100, cbFlashCrashDropPercent := 15,
        cbFlashCrashWindowMinutes := 5, cbTradingHaltDurationMinutes := 60 }
      0 "BTC-USDT" 95
      [{ id := 1, pairID := 1, side := "buy", status := "open", quantity := 1,
         entryPrice := 100, currentPrice := 95, unrealizedPnL := -5,
         realizedPnL := 0, orderID := "o", closedAt := none, updatedAt := 0 }]
      = ([{ id := 1, pairID := 1, side := "buy", status := "open", quantity := 1,
            entryPrice := 100, currentPrice := 95, unrealizedPnL := -5,
            realizedPnL := 0, orderID := "o", closedAt := none, updatedAt := 0 }], []) := by
  refine ⟨by norm_num, ?_, ?_⟩
  · simp [shouldStopLoss]
    norm_num
  · simp [sltpSweep, shouldStopLoss, shouldTakeProfit]
    norm_num

/-- C1 amended: the stop-loss comparison is strict, not inclusive.  For an
open position with positive entry price: with side=buy the stop-loss
triggers exactly when `current_price < entry · (1 − stop_loss_percent)`
(so the boundary price itself does not trigger), and with side=sell exactly
when `current_price > entry · (1 + stop_loss_percent)`. -/
theorem shouldStopLoss_strict_iff (cfg : EngineConfig) (position : Position) (price : ℚ)
    (hopen : position.status = "open") (hentry : 0 < position.entryPrice) :
    (position.side = "buy" →
      (shouldStopLoss cfg position price = true ↔
        price < position.entryPrice * (1 - cfg.stopLossPercent))) ∧
    (position.side = "sell" →
      (shouldStopLoss cfg position price = true ↔
        position.entryPrice * (1 + cfg.stopLossPercent) < price)) := by
  constructor
  · intro hside
    unfold shouldStopLoss
    rw [if_neg (by simp [hopen]), if_pos hside]
    simp only [decide_eq_true_eq, gt_iff_lt, lt_div_iff₀ hentry]
    constructor <;> intro h <;> nlinarith
  · intro hside
    unfold shouldStopLoss
    rw [if_neg (by simp [hopen]), if_neg (by simp [hside])]
    simp only [decide_eq_true_eq, gt_iff_lt, lt_div_iff₀ hentry]
    constructor <;> intro h <;> nlinarith

/-- C1 witness for the amended claim: a buy position with entry 100 and 5%
stop-loss at price 94 (strictly below the 95 boundary) does trigger the
stop-loss. -/
theorem shouldStopLoss_strict_iff_witness :
    shouldStopLoss
      { stopLossPercent := 5/100, takeProfitPercent := 1/10, maxPositionsPerPair := 3,
        defaultPositionSize := 100, cbFlashCrashDropPercent := 15,
        cbFlashCrashWindowMinutes := 5, cbTradingHaltDurationMinutes := 60 }
      { id := 1, pairID := 1, side := "buy", status := "open", quantity := 1,
        entryPrice := 100, currentPrice := 94, unrealizedPnL := -6,
        realizedPnL := 0, orderID := "o", closedAt := none, updatedAt := 0 } 94 = true :=
  ((shouldStopLoss_strict_iff
      { stopLossPercent := 5/100, takeProfitPercent := 1/10, maxPositionsPerPair := 3,
        defaultPositionSize := 100, cbFlashCrashDropPercent := 15,
        cbFlashCrashWindowMinutes := 5, cbTradingHaltDurationMinutes := 60 }
      { id := 1, pairID := 1, side := "buy", status := "open", quantity := 1,
        entryPrice := 100, currentPrice := 94, unrealizedPnL := -6,
        realizedPnL := 0, orderID := "o", closedAt := none, updatedAt := 0 }
      94 rfl (by norm_num)).1 rfl).mpr (by norm_num)

/-- C3: for every local order in a non-final status with a linked position
in status `open_pending`, when one reconciliation step observes the exchange
reporting `partially_filled` with filled size q and price p, afterwards the
local order has status `partially_filled` and `filledQuantity = q`, and the
linked position has status `open`, `entryPrice = p` and `quantity = q`. -/
theorem syncOrderStep_partial_fill_updates (now : ℤ) (localOrder : Order)
    (detail : ExchangeOrderDetail) (position : Position)
    (_horder : localOrder.status = "pending" ∨ localOrder.status = "open" ∨
      localOrder.status = "partially_filled")
    (hpid : localOrder.positionID ≠ none)
    (hdetail : detail.status = "partially_filled")
    (hpos : position.status = "open_pending") :
    (syncOrderStep now localOrder detail (some position)).1.status = "partially_filled" ∧
    (syncOrderStep now localOrder detail (some position)).1.filledQuantity = detail.dealSize ∧
    (syncOrderStep now localOrder detail (some position)).2 =
      some { position with
        status := "open"
        entryPrice := detail.price
        quantity := detail.dealSize
        updatedAt := now } := by
  have hfields : (syncOrderLocal now localOrder detail).status = "partially_filled" ∧
      (syncOrderLocal now localOrder detail).filledQuantity = detail.dealSize ∧
      (syncOrderLocal now localOrder detail).positionID = localOrder.positionID := by
    unfold syncOrderLocal
    rw [hdetail]
    simp only []
    split_ifs <;> simp_all
  have hstep : syncOrderStep now localOrder detail (some position) =
      (syncOrderLocal now localOrder detail,
        some (syncPositionUpdate now (syncOrderLocal now localOrder detail) detail position)) := by
    unfold syncOrderStep
    rw [if_pos]
    constructor
    · right; left; exact hdetail
    · rw [hfields.2.2]; exact hpid
  rw [hstep]
  refine ⟨hfields.1, hfields.2.1, ?_⟩
  unfold syncPositionUpdate
  rw [hdetail]
  simp [hpos]

/-- C3 witness: the spec's partial-fill scenario.  A local order that is
`open` with `filledQuantity = 0.2` and `quantity = 1`, linked to an
`open_pending` position, observed by reconciliation while the exchange
reports `partially_filled` with `dealSize = 0.5` at price 100, yields a
`partially_filled` order with `filledQuantity = 0.5` and an `open` position
with `entryPrice = 100` and `quantity = 0.5`. -/
theorem syncOrderStep_partial_fill_updates_witness :
    (syncOrderStep 3
      { positionID := some 7, pairID := 1, kucoinOrderID := "k", side := "buy",
        type := "limit", quantity := 1, price := 99, filledQuantity := 2/10, fee := 0,
        status := "open", createdAt := 0, updatedAt := 0, filledAt := none }
      { status := "partially_filled", dealSize := 1/2, price := 100, fee := 0 }
      (some { id := 7, pairID := 1, side := "buy", status := "open_pending",
              quantity := 1, entryPrice := 0, currentPrice := 0, unrealizedPnL := 0,
              realizedPnL := 0, orderID := "k", closedAt := none, updatedAt := 0 })).1.status
      = "partially_filled" ∧
    (syncOrderStep 3
      { positionID := some 7, pairID := 1, kucoinOrderID := "k", side := "buy",
        type := "limit", quantity := 1, price := 99, filledQuantity := 2/10, fee := 0,
        status := "open", createdAt := 0, updatedAt := 0, filledAt := none }
      { status := "partially_filled", dealSize := 1/2, price := 100, fee := 0 }
      (some { id := 7, pairID := 1, side := "buy", status := "open_pending",
              quantity := 1, entryPrice := 0, currentPrice := 0, unrealizedPnL := 0,
              realizedPnL := 0, orderID := "k", closedAt := none, updatedAt := 0 })).1.filledQuantity
      = 1/2 ∧
    (syncOrderStep 3
      { positionID := some 7, pairID := 1, kucoinOrderID := "k", side := "buy",
        type := "limit", quantity := 1, price := 99, filledQuantity := 2/10, fee := 0,
        status := "open", createdAt := 0, updatedAt := 0, filledAt := none }
      { status := "partially_filled", dealSize := 1/2, price := 100, fee := 0 }
      (some { id := 7, pairID := 1, side := "buy", status := "open_pending",
              quantity := 1, entryPrice := 0, currentPrice := 0, unrealizedPnL := 0,
              realizedPnL := 0, orderID := "k", closedAt := none, updatedAt := 0 })).2
      = some { id := 7, pairID := 1, side := "buy", status := "open",
               quantity := 1/2, entryPrice := 100, currentPrice := 0, unrealizedPnL := 0,
               realizedPnL := 0, orderID := "k", closedAt := none, updatedAt := 3 } := by
  exact syncOrderStep_partial_fill_updates 3
    { positionID := some 7, pairID := 1, kucoinOrderID := "k", side := "buy",
      type := "limit", quantity := 1, price := 99, filledQuantity := 2/10, fee := 0,
      status := "open", createdAt := 0, updatedAt := 0, filledAt := none }
    { status := "partially_filled", dealSize := 1/2, price := 100, fee := 0 }
    { id := 7, pairID := 1, side := "buy", status := "open_pending",
      quantity := 1, entryPrice := 0, currentPrice := 0, unrealizedPnL := 0,
      realizedPnL := 0, orderID := "k", closedAt := none, updatedAt := 0 }
    (Or.inr (Or.inl rfl)) (by simp) rfl rfl

lemma goRound_intCast (n : ℤ) : goRound (n : ℚ) = n := by
  unfold goRound
  by_cases h : (n : ℚ) < 0
  · rw [if_pos h]
    have : -(n : ℚ) + 1/2 = ((-n : ℤ) : ℚ) + 1/2 := by push_cast; ring
    rw [this, Int.floor_int_add]
    norm_num
  · rw [if_neg h, Int.floor_int_add]
    norm_num

lemma goRound_nonneg (q : ℚ) (h : 0 ≤ q) : 0 ≤ goRound q := by
  unfold goRound
  rw [if_neg (not_lt.2 h)]
  rw [Int.le_floor]
  push_cast
  linarith

lemma goRound_le_int (q : ℚ) (n : ℤ) (h : q ≤ (n : ℚ)) : goRound q ≤ n := by
  unfold goRound
  by_cases hq : q < 0
  · rw [if_pos hq]
    have h2 : (-n : ℤ) ≤ ⌊-q + 1/2⌋ := by
      rw [Int.le_floor]; push_cast; linarith
    omega
  · rw [if_neg hq]
    rw [Int.floor_le_iff]
    linarith

lemma signedCapRound_nonneg_eq (maxV mult w : ℚ) (h : 0 ≤ w) :
    signedCapRound maxV mult w =
      if w > maxV then maxV else (goRound (w * mult) : ℚ) / mult := by
  unfold signedCapRound
  rw [if_neg (not_lt.2 h)]
  simp only [mul_one]
  rw [if_neg (not_lt.2 h)]

lemma signedCapRound_result_nonneg (maxV mult w : ℚ) (hM : 0 ≤ maxV) (hmult : 0 ≤ mult)
    (h : 0 ≤ w) : 0 ≤ signedCapRound maxV mult w := by
  rw [signedCapRound_nonneg_eq maxV mult w h]
  split_ifs
  · exact hM
  · exact div_nonneg (by exact_mod_cast goRound_nonneg _ (mul_nonneg h hmult)) hmult

lemma signedCapRound_neg (maxV mult w : ℚ) (h : w < 0) :
    signedCapRound maxV mult w = -(signedCapRound maxV mult (-w)) := by
  have h2 : ¬ (-w < 0) := by linarith
  unfold signedCapRound
  rw [if_pos h, if_pos h, if_neg h2, if_neg h2]
  simp only [neg_neg, mul_one]
  split_ifs <;> ring

lemma signedCapRound_zero (maxV mult : ℚ) (hM : 0 ≤ maxV) :
    signedCapRound maxV mult 0 = 0 := by
  rw [signedCapRound_nonneg_eq maxV mult 0 le_rfl, if_neg (not_lt.2 hM)]
  have : (0 : ℚ) * mult = ((0 : ℤ) : ℚ) := by norm_num
  rw [this, goRound_intCast]
  norm_num

lemma signedCapRound_idem_nonneg (maxV mult : ℤ) (hM : 0 ≤ maxV) (hmult : 0 < mult)
    (w : ℚ) (hw : 0 ≤ w) :
    signedCapRound (maxV : ℚ) (mult : ℚ) (signedCapRound (maxV : ℚ) (mult : ℚ) w) =
      signedCapRound (maxV : ℚ) (mult : ℚ) w := by
  have hμQ : (0 : ℚ) < (mult : ℚ) := by exact_mod_cast hmult
  have hμne : (mult : ℚ) ≠ 0 := ne_of_gt hμQ
  have hMQ : (0 : ℚ) ≤ (maxV : ℚ) := by exact_mod_cast hM
  rw [signedCapRound_nonneg_eq _ _ w hw]
  split_ifs with hcap
  · -- capped branch: re-normalizing the cap value is the identity
    rw [signedCapRound_nonneg_eq _ _ _ hMQ, if_neg (lt_irrefl _)]
    have hcast : (maxV : ℚ) * (mult : ℚ) = ((maxV * mult : ℤ) : ℚ) := by push_cast; ring
    rw [hcast, goRound_intCast]
    push_cast
    field_simp
  · -- rounded branch: the rounded value is a multiple of 1/mult, so it is fixed
    set k : ℤ := goRound (w * mult) with hk
    have hk0 : 0 ≤ k := goRound_nonneg _ (mul_nonneg hw (le_of_lt hμQ))
    have hkM : k ≤ maxV * mult := by
      apply goRound_le_int
      have hwM : w ≤ (maxV : ℚ) := le_of_not_lt hcap
      calc w * (mult : ℚ) ≤ (maxV : ℚ) * (mult : ℚ) :=
            mul_le_mul_of_nonneg_right hwM (le_of_lt hμQ)
        _ = ((maxV * mult : ℤ) : ℚ) := by push_cast; ring
    have hr0 : (0 : ℚ) ≤ (k : ℚ) / (mult : ℚ) :=
      div_nonneg (by exact_mod_cast hk0) (le_of_lt hμQ)
    have hrM : (k : ℚ) / (mult : ℚ) ≤ (maxV : ℚ) := by
      rw [div_le_iff₀ hμQ]
      exact_mod_cast hkM
    rw [signedCapRound_nonneg_eq _ _ _ hr0, if_neg (not_lt.2 hrM)]
    have : (k : ℚ) / (mult : ℚ) * (mult : ℚ) = (k : ℚ) := by field_simp
    rw [this, goRound_intCast]

lemma signedCapRound_idem (maxV mult : ℤ) (hM : 0 ≤ maxV) (hmult : 0 < mult) (w : ℚ) :
    signedCapRound (maxV : ℚ) (mult : ℚ) (signedCapRound (maxV : ℚ) (mult : ℚ) w) =
      signedCapRound (maxV : ℚ) (mult : ℚ) w := by
  have hMQ : (0 : ℚ) ≤ (maxV : ℚ) := by exact_mod_cast hM
  rcases le_or_lt 0 w with hw | hw
  · exact signedCapRound_idem_nonneg maxV mult hM hmult w hw
  · rw [signedCapRound_neg _ _ w hw]
    have hr0 : 0 ≤ signedCapRound (maxV : ℚ) (mult : ℚ) (-w) :=
      signedCapRound_result_nonneg _ _ _ hMQ (by positivity) (by linarith)
    rcases eq_or_lt_of_le hr0 with hr | hr
    · rw [← hr, neg_zero, signedCapRound_zero _ _ hMQ]
    · rw [signedCapRound_neg _ _ _ (by linarith), neg_neg,
        signedCapRound_idem_nonneg maxV mult hM hmult (-w) (by linarith)]

/-- C7: the collector's field normalization is idempotent —
`normalize (normalize x) = normalize x` for every input — and NaN or
infinite inputs normalize to 0 in a single application (price fields cap
the magnitude at 999999999999 and round to 8 decimal places; change-rate
fields cap at 9999 and round to 6 decimal places). -/
theorem normalizeField_idempotent_and_nonfinite_zero :
    (∀ x : GoFloat,
      normalizePriceField (GoFloat.finite (normalizePriceField x)) = normalizePriceField x) ∧
    (∀ x : GoFloat,
      normalizeChangeRateField (GoFloat.finite (normalizeChangeRateField x)) =
        normalizeChangeRateField x) ∧
    normalizePriceField GoFloat.nan = 0 ∧
    normalizePriceField (GoFloat.inf true) = 0 ∧
    normalizePriceField (GoFloat.inf false) = 0 ∧
    normalizeChangeRateField GoFloat.nan = 0 ∧
    normalizeChangeRateField (GoFloat.inf true) = 0 ∧
    normalizeChangeRateField (GoFloat.inf false) = 0 := by
  have hprice : ∀ q : ℚ,
      signedCapRound 999999999999 100000000 (signedCapRound 999999999999 100000000 q) =
        signedCapRound 999999999999 100000000 q := by
    intro q
    have h := signedCapRound_idem 999999999999 100000000 (by norm_num) (by norm_num) q
    norm_num at h
    exact h
  have hrate : ∀ q : ℚ,
      signedCapRound 9999 1000000 (signedCapRound 9999 1000000 q) =
        signedCapRound 9999 1000000 q := by
    intro q
    have h := signedCapRound_idem 9999 1000000 (by norm_num) (by norm_num) q
    norm_num at h
    exact h
  have hz1 : signedCapRound (999999999999 : ℚ) 100000000 0 = 0 :=
    signedCapRound_zero _ _ (by norm_num)
  have hz2 : signedCapRound (9999 : ℚ) 1000000 0 = 0 :=
    signedCapRound_zero _ _ (by norm_num)
  refine ⟨?_, ?_, rfl, rfl, rfl, rfl, rfl, rfl⟩
  · intro x
    cases x with
    | nan => simpa [normalizePriceField] using hz1
    | inf b => simpa [normalizePriceField] using hz1
    | finite q => simpa [normalizePriceField] using hprice q
  · intro x
    cases x with
    | nan => simpa [normalizeChangeRateField] using hz2
    | inf b => simpa [normalizeChangeRateField] using hz2
    | finite q => simpa [normalizeChangeRateField] using hrate q

lemma checkFlashCrashBody_other_symbol (cfg : EngineConfig) (st : RiskState) (now : ℤ)
    (pairSymbol : String) (priceHistory : List PricePoint) (currentPrice : ℚ)
    (t : String) (ht : t ≠ pairSymbol) :
    (checkFlashCrashBody cfg st now pairSymbol priceHistory
        currentPrice).2.flashHaltedUntil t = st.flashHaltedUntil t := by
  unfold checkFlashCrashBody
  dsimp only
  split_ifs <;> simp [ht]

lemma checkFlashCrash_other_symbol (cfg : EngineConfig) (st : RiskState) (now : ℤ)
    (pairSymbol : String) (priceHistory : List PricePoint) (currentPrice : ℚ)
    (t : String) (ht : t ≠ pairSymbol) :
    (checkFlashCrash cfg st now pairSymbol priceHistory
        currentPrice).2.flashHaltedUntil t = st.flashHaltedUntil t := by
  unfold checkFlashCrash
  rcases hm : st.flashHaltedUntil pairSymbol with _ | haltTime
  · simp only [hm]
    exact checkFlashCrashBody_other_symbol cfg st now pairSymbol priceHistory currentPrice t ht
  · simp only [hm]
    split_ifs with h1 h2
    · rfl
    · rw [checkFlashCrashBody_other_symbol _ _ now pairSymbol priceHistory currentPrice t ht]
      simp [ht]
    · exact checkFlashCrashBody_other_symbol cfg st now pairSymbol priceHistory currentPrice t ht

/-- C4: while a flash-crash halt deadline is active for a symbol (the stored
deadline lies strictly in the future), `processPair` skips the pair before
signal generation and strategy dispatch and places zero orders for it;
when no halt is active and the breaker is enabled, the halt deadline is
installed exactly when the window drop fraction
`(max_close_in_window − current_price) / max_close_in_window` (expressed in
percent, i.e. multiplied by 100) is greater than or equal to
`cb_flash_crash_drop_percent` — an inclusive comparison — and a halted check
again yields zero orders and no signal; in every case the halt state of
every other symbol is untouched. -/
theorem flashCrash_halt_spec (cfg : EngineConfig) (st : RiskState) (now : ℤ)
    (pairSymbol : String) (priceHistory : List PricePoint) (currentPrice : ℚ)
    (positions : List Position) (signalOf : ℚ → Signal)
    (strategy : Signal → List Position → List Order) :
    (∀ deadline : ℤ, st.flashHaltedUntil pairSymbol = some deadline → now < deadline →
      (checkFlashCrash cfg st now pairSymbol priceHistory currentPrice).1 = true ∧
      (processPair cfg st now pairSymbol priceHistory currentPrice positions signalOf
          strategy).ordersPlaced = [] ∧
      (processPair cfg st now pairSymbol priceHistory currentPrice positions signalOf
          strategy).signalGenerated = false) ∧
    (st.flashHaltedUntil pairSymbol = none →
      0 < cfg.cbFlashCrashDropPercent →
      0 < cfg.cbFlashCrashWindowMinutes →
      priceHistory ≠ [] →
      0 < maxCloseInWindow priceHistory →
      ((checkFlashCrash cfg st now pairSymbol priceHistory currentPrice).1 = true ↔
        cfg.cbFlashCrashDropPercent ≤
          (maxCloseInWindow priceHistory - currentPrice) / maxCloseInWindow priceHistory
            * 100) ∧
      ((checkFlashCrash cfg st now pairSymbol priceHistory currentPrice).1 = true →
        (checkFlashCrash cfg st now pairSymbol priceHistory currentPrice).2.flashHaltedUntil
            pairSymbol = some (now + cfg.cbTradingHaltDurationMinutes)) ∧
      ((checkFlashCrash cfg st now pairSymbol priceHistory currentPrice).1 = true →
        (processPair cfg st now pairSymbol priceHistory currentPrice positions signalOf
            strategy).ordersPlaced = [] ∧
        (processPair cfg st now pairSymbol priceHistory currentPrice positions signalOf
            strategy).signalGenerated = false)) ∧
    (∀ t, t ≠ pairSymbol →
      (processPair cfg st now pairSymbol priceHistory currentPrice positions signalOf
          strategy).newState.flashHaltedUntil t = st.flashHaltedUntil t) := by
  refine ⟨?_, ?_, ?_⟩
  · -- an active halt deadline short-circuits to halted and the pair is skipped
    intro deadline hsome hlt
    have hc : checkFlashCrash cfg st now pairSymbol priceHistory currentPrice = (true, st) := by
      unfold checkFlashCrash
      rw [hsome]
      simp [hlt]
    refine ⟨by rw [hc], ?_, ?_⟩
    · unfold processPair
      rw [hc]
      rfl
    · unfold processPair
      rw [hc]
      rfl
  · -- no active halt: the drop check decides, inclusively
    intro hnone hdropcfg hwin hne hmax
    have hbody : checkFlashCrash cfg st now pairSymbol priceHistory currentPrice =
        checkFlashCrashBody cfg st now pairSymbol priceHistory currentPrice := by
      unfold checkFlashCrash
      rw [hnone]
    have hcond1 : ¬ (cfg.cbFlashCrashDropPercent ≤ 0 ∨ cfg.cbFlashCrashWindowMinutes ≤ 0) := by
      push_neg
      exact ⟨hdropcfg, hwin⟩
    have hlen : ¬ priceHistory.length = 0 := by
      simpa [List.length_eq_zero] using hne
    by_cases hd : (maxCloseInWindow priceHistory - currentPrice) / maxCloseInWindow priceHistory
        * 100 ≥ cfg.cbFlashCrashDropPercent
    · have hc : checkFlashCrash cfg st now pairSymbol priceHistory currentPrice =
          (true, { flashHaltedUntil := fun s =>
            if s = pairSymbol then some (now + cfg.cbTradingHaltDurationMinutes)
            else st.flashHaltedUntil s }) := by
        rw [hbody]
        unfold checkFlashCrashBody
        rw [if_neg hcond1, if_neg hlen]
        dsimp only
        rw [if_neg hmax.ne', if_pos hd]
      refine ⟨?_, ?_, ?_⟩
      · rw [hc]
        simpa using hd
      · intro _
        rw [hc]
        simp
      · intro _
        unfold processPair
        rw [hc]
        exact ⟨rfl, rfl⟩
    · have hc : checkFlashCrash cfg st now pairSymbol priceHistory currentPrice =
          (false, st) := by
        rw [hbody]
        unfold checkFlashCrashBody
        rw [if_neg hcond1, if_neg hlen]
        dsimp only
        rw [if_neg hmax.ne', if_neg hd]
      refine ⟨?_, ?_, ?_⟩
      · rw [hc]
        simpa using hd
      · intro hfalse
        rw [hc] at hfalse
        simp at hfalse
      · intro hfalse
        rw [hc] at hfalse
        simp at hfalse
  · -- no run of processPair touches another symbol's halt entry
    intro t ht
    have hstate : (processPair cfg st now pairSymbol priceHistory currentPrice positions
        signalOf strategy).newState =
        (checkFlashCrash cfg st now pairSymbol priceHistory currentPrice).2 := by
      unfold processPair
      dsimp only
      split_ifs <;> rfl
    rw [hstate]
    exact checkFlashCrash_other_symbol cfg st now pairSymbol priceHistory currentPrice t ht

/-- C4 witness: at tick time 10 with a stored halt deadline of 100 for
symbol X (halt active, installed on some earlier tick), `processPair`
places no orders for X and generates no signal; and in a fresh state with
no halt, a window maximum of 100 against current price 80 (a 20% drop, over
the configured 15%) makes the flash-crash check report halted. -/
theorem flashCrash_halt_spec_witness :
    (processPair
      { stopLossPercent := 5/100, takeProfitPercent := 1/10, maxPositionsPerPair := 3,
        defaultPositionSize := 100, cbFlashCrashDropPercent := 15,
        cbFlashCrashWindowMinutes := 5, cbTradingHaltDurationMinutes := 60 }
      { flashHaltedUntil := fun s => if s = "X" then some 100 else none } 10 "X"
      [{ timestamp := 0, high := 100, low := 100, close := 100, volume := 10 }] 80
      [] (fun p => { symbol := "X", action := "HOLD", price := p, strength := 1/2,
                     reason := "r" })
      (fun _ _ => [])).ordersPlaced = [] ∧
    (processPair
      { stopLossPercent := 5/100, takeProfitPercent := 1/10, maxPositionsPerPair := 3,
        defaultPositionSize := 100, cbFlashCrashDropPercent := 15,
        cbFlashCrashWindowMinutes := 5, cbTradingHaltDurationMinutes := 60 }
      { flashHaltedUntil := fun s => if s = "X" then some 100 else none } 10 "X"
      [{ timestamp := 0, high := 100, low := 100, close := 100, volume := 10 }] 80
      [] (fun p => { symbol := "X", action := "HOLD", price := p, strength := 1/2,
                     reason := "r" })
      (fun _ _ => [])).signalGenerated = false ∧
    (checkFlashCrash
      { stopLossPercent := 5/100, takeProfitPercent := 1/10, maxPositionsPerPair := 3,
        defaultPositionSize := 100, cbFlashCrashDropPercent := 15,
        cbFlashCrashWindowMinutes := 5, cbTradingHaltDurationMinutes := 60 }
      { flashHaltedUntil := fun _ => none } 0 "X"
      [{ timestamp := 0, high := 100, low := 100, close := 100, volume := 10 }] 80).1
      = true := by
  have hmaxval : maxCloseInWindow
      [({ timestamp := 0, high := 100, low := 100, close := 100, volume := 10 } :
        PricePoint)] = 100 := by
    simp [maxCloseInWindow]
  have hactive := (flashCrash_halt_spec
    { stopLossPercent := 5/100, takeProfitPercent := 1/10, maxPositionsPerPair := 3,
      defaultPositionSize := 100, cbFlashCrashDropPercent := 15,
      cbFlashCrashWindowMinutes := 5, cbTradingHaltDurationMinutes := 60 }
    { flashHaltedUntil := fun s => if s = "X" then some 100 else none } 10 "X"
    [{ timestamp := 0, high := 100, low := 100, close := 100, volume := 10 }] 80
    [] (fun p => { symbol := "X", action := "HOLD", price := p, strength := 1/2,
                   reason := "r" })
    (fun _ _ => [])).1 100 (by simp) (by norm_num)
  have hfresh := (flashCrash_halt_spec
    { stopLossPercent := 5/100, takeProfitPercent := 1/10, maxPositionsPerPair := 3,
      defaultPositionSize := 100, cbFlashCrashDropPercent := 15,
      cbFlashCrashWindowMinutes := 5, cbTradingHaltDurationMinutes := 60 }
    { flashHaltedUntil := fun _ => none } 0 "X"
    [{ timestamp := 0, high := 100, low := 100, close := 100, volume := 10 }] 80
    [] (fun p => { symbol := "X", action := "HOLD", price := p, strength := 1/2,
                   reason := "r" })
    (fun _ _ => [])).2.1
    rfl (by norm_num) (by norm_num) (by simp) (by rw [hmaxval]; norm_num)
  exact ⟨hactive.2.1, hactive.2.2, hfresh.1.mpr (by rw [hmaxval]; norm_num)⟩

lemma topUp_append (xs : List PairAnalysis) (sel : List PairAnalysis) (m : ℕ) :
    ∃ extra, topUp xs sel m = sel ++ extra := by
  induction xs generalizing sel with
  | nil => exact ⟨[], by simp [topUp]⟩
  | cons a tail ih =>
    simp only [topUp]
    split_ifs with h1 h2
    · exact ⟨[], by simp⟩
    · exact ih sel
    · obtain ⟨r, hr⟩ := ih (sel ++ [a])
      exact ⟨[a] ++ r, by rw [hr, List.append_assoc]⟩

lemma topUp_length_le (xs : List PairAnalysis) (sel : List PairAnalysis) (m : ℕ)
    (h : sel.length ≤ m) : (topUp xs sel m).length ≤ m := by
  induction xs generalizing sel with
  | nil => simpa [topUp] using h
  | cons a tail ih =>
    simp only [topUp]
    split_ifs with h1 h2
    · exact h
    · exact ih sel h
    · apply ih
      simp only [List.length_append, List.length_singleton]
      omega

lemma topUp_nodup (xs : List PairAnalysis) (sel : List PairAnalysis) (m : ℕ)
    (h : (sel.map (fun a => a.symbol)).Nodup) :
    ((topUp xs sel m).map (fun a => a.symbol)).Nodup := by
  induction xs generalizing sel with
  | nil => simpa [topUp] using h
  | cons a tail ih =>
    simp only [topUp]
    split_ifs with h1 h2
    · exact h
    · exact ih sel h
    · apply ih
      rw [List.map_append]
      rw [List.nodup_append]
      refine ⟨h, by simp, ?_⟩
      intro c hc1 hc2
      simp only [List.map_cons, List.map_nil, List.mem_singleton] at hc2
      subst hc2
      exact h2 hc1

lemma topUp_length_ge (xs : List PairAnalysis) (sel : List PairAnalysis) (m : ℕ)
    (hxs : (xs.map (fun a => a.symbol)).Nodup) :
    min m (sel.length +
      (xs.filter (fun a => !decide (a.symbol ∈ sel.map (fun s => s.symbol)))).length) ≤
    (topUp xs sel m).length := by
  induction xs generalizing sel with
  | nil =>
    simp only [topUp, List.filter_nil, List.length_nil, Nat.add_zero]
    exact min_le_right _ _
  | cons a tail ih =>
    have hxtail : (tail.map (fun a => a.symbol)).Nodup := by
      simp only [List.map_cons, List.nodup_cons] at hxs
      exact hxs.2
    have hahead : a.symbol ∉ tail.map (fun b => b.symbol) := by
      simp only [List.map_cons, List.nodup_cons] at hxs
      exact hxs.1
    simp only [topUp]
    split_ifs with h1 h2
    · exact le_trans (min_le_left _ _) h1
    · rw [List.filter_cons_of_neg (by simpa using h2)]
      exact ih sel hxtail
    · rw [List.filter_cons_of_pos (by simpa using h2)]
      have hcongr : tail.filter
            (fun b => !decide (b.symbol ∈ (sel ++ [a]).map (fun s => s.symbol))) =
          tail.filter (fun b => !decide (b.symbol ∈ sel.map (fun s => s.symbol))) := by
        apply List.filter_congr
        intro b hb
        have hbne : b.symbol ≠ a.symbol := by
          intro he
          exact hahead (he ▸ List.mem_map_of_mem (fun x => x.symbol) hb)
        simp [hbne]
      have := ih (sel ++ [a]) hxtail
      rw [hcongr] at this
      refine le_trans ?_ this
      simp only [List.length_append, List.length_singleton, List.length_cons]
      omega

lemma filtered_bucket_disjoint (analyses : List PairAnalysis)
    (hnd : (analyses.map (fun a => a.symbol)).Nodup)
    (p q : PairAnalysis → Bool) (hpq : ∀ a, p a = true → q a = true → False)
    (n k : ℕ) :
    List.Disjoint (((analyses.filter p).take n).map (fun a => a.symbol))
      (((analyses.filter q).take k).map (fun a => a.symbol)) := by
  intro c hc1 hc2
  obtain ⟨a1, ha1, rfl⟩ := List.mem_map.1 hc1
  obtain ⟨a2, ha2, hsym⟩ := List.mem_map.1 hc2
  have ha1f : a1 ∈ analyses.filter p := List.mem_of_mem_take ha1
  have ha2f : a2 ∈ analyses.filter q := List.mem_of_mem_take ha2
  have ha1m := (List.mem_filter.1 ha1f).1
  have ha1p := (List.mem_filter.1 ha1f).2
  have ha2m := (List.mem_filter.1 ha2f).1
  have ha2q := (List.mem_filter.1 ha2f).2
  have heq : a2 = a1 := List.inj_on_of_nodup_map hnd ha2m ha1m hsym
  exact hpq a1 ha1p (heq ▸ ha2q)

lemma bucketSelection_length_le (analyses : List PairAnalysis) (maxPairs : ℕ) :
    (bucketSelection analyses maxPairs).length ≤ maxPairs := by
  unfold bucketSelection
  simp only [List.length_append, List.length_take]
  have h1 : min (maxPairs / 3) (analyses.filter (fun a => a.riskLevel = "low")).length ≤
      maxPairs / 3 := min_le_left _ _
  have h2 : min (maxPairs / 3) (analyses.filter (fun a => a.riskLevel = "medium")).length ≤
      maxPairs / 3 := min_le_left _ _
  have h3 : min (maxPairs - maxPairs / 3 - maxPairs / 3)
      (analyses.filter (fun a => a.riskLevel = "high")).length ≤
      maxPairs - maxPairs / 3 - maxPairs / 3 := min_le_left _ _
  omega

lemma bucketSelection_nodup (analyses : List PairAnalysis) (maxPairs : ℕ)
    (hnd : (analyses.map (fun a => a.symbol)).Nodup) :
    ((bucketSelection analyses maxPairs).map (fun a => a.symbol)).Nodup := by
  unfold bucketSelection
  simp only [List.map_append]
  have hone : ∀ (p : PairAnalysis → Bool) (n : ℕ),
      (((analyses.filter p).take n).map (fun a => a.symbol)).Nodup := by
    intro p n
    apply List.Nodup.sublist ?_ hnd
    exact List.Sublist.map _ (((analyses.filter p).take_sublist n).trans
      (analyses.filter_sublist))
  rw [List.nodup_append]
  refine ⟨?_, hone _ _, ?_⟩
  · rw [List.nodup_append]
    refine ⟨hone _ _, hone _ _, ?_⟩
    exact filtered_bucket_disjoint analyses hnd _ _
      (fun a hp hq => by
        simp only [decide_eq_true_eq] at hp hq
        rw [hp] at hq
        exact absurd hq (by decide)) _ _
  · intro c hc1 hc2
    rw [List.mem_append] at hc1
    rcases hc1 with hc1 | hc1
    · exact filtered_bucket_disjoint analyses hnd _ _
        (fun a hp hq => by
          simp only [decide_eq_true_eq] at hp hq
          rw [hp] at hq
          exact absurd hq (by decide)) _ _ hc1 hc2
    · exact filtered_bucket_disjoint analyses hnd _ _
        (fun a hp hq => by
          simp only [decide_eq_true_eq] at hp hq
          rw [hp] at hq
          exact absurd hq (by decide)) _ _ hc1 hc2

lemma selected_filter_length_le (analyses sel : List PairAnalysis)
    (hnd : (analyses.map (fun a => a.symbol)).Nodup) :
    (analyses.filter (fun a => decide (a.symbol ∈ sel.map (fun s => s.symbol)))).length ≤
      sel.length := by
  set F := analyses.filter (fun a => decide (a.symbol ∈ sel.map (fun s => s.symbol))) with hF
  have hFsub : List.Sublist F analyses := analyses.filter_sublist
  have hFnodup : (F.map (fun a => a.symbol)).Nodup :=
    List.Nodup.sublist (List.Sublist.map _ hFsub) hnd
  have hFsubset : F.map (fun a => a.symbol) ⊆ sel.map (fun s => s.symbol) := by
    intro c hc
    obtain ⟨a, ha, rfl⟩ := List.mem_map.1 hc
    have := (List.mem_filter.1 ha).2
    simpa using this
  have hperm := List.subperm_of_subset hFnodup hFsubset
  have := hperm.length_le
  simpa using this

/-- C5: for every list of scored candidate analyses with pairwise-distinct
symbols and every `maxPairs`, the risk-balanced `SelectTopPairs` returns
exactly `min maxPairs |analyses|` entries with no symbol appearing twice;
when there are more candidates than slots, the result starts with the
bucket allocation (`⌊maxPairs/3⌋` slots each for the low and medium risk
buckets and the remainder for high, filled in ranked order) and is topped
up from the overall ranked list. -/
theorem selectTopPairs_spec (analyses : List PairAnalysis) (maxPairs : ℕ)
    (hnd : (analyses.map (fun a => a.symbol)).Nodup) :
    (selectTopPairs analyses maxPairs).length = min maxPairs analyses.length ∧
    ((selectTopPairs analyses maxPairs).map (fun a => a.symbol)).Nodup ∧
    (analyses.length ≤ maxPairs → selectTopPairs analyses maxPairs = analyses) ∧
    (maxPairs < analyses.length →
      ∃ extra, selectTopPairs analyses maxPairs =
        bucketSelection analyses maxPairs ++ extra) := by
  by_cases hle : analyses.length ≤ maxPairs
  · rw [selectTopPairs, if_pos hle]
    exact ⟨(min_eq_right hle).symm, hnd, fun _ => rfl, fun h => absurd h (by omega)⟩
  · have hlt : maxPairs < analyses.length := not_le.1 hle
    rw [selectTopPairs, if_neg hle]
    set sel := bucketSelection analyses maxPairs with hsel
    have hbLen : sel.length ≤ maxPairs := bucketSelection_length_le analyses maxPairs
    have hbNodup : (sel.map (fun a => a.symbol)).Nodup :=
      bucketSelection_nodup analyses maxPairs hnd
    have hsplit := List.length_eq_length_filter_add
      (l := analyses) (fun a => decide (a.symbol ∈ sel.map (fun s => s.symbol)))
    have hinle := selected_filter_length_le analyses sel hnd
    have hreach : maxPairs ≤ sel.length +
        (analyses.filter
          (fun a => !decide (a.symbol ∈ sel.map (fun s => s.symbol)))).length := by
      omega
    have hge := topUp_length_ge analyses sel maxPairs hnd
    rw [min_eq_left hreach] at hge
    have hlefin := topUp_length_le analyses sel maxPairs hbLen
    refine ⟨?_, topUp_nodup analyses sel maxPairs hbNodup, fun h => absurd h (by omega),
      fun _ => topUp_append analyses sel maxPairs⟩
    rw [min_eq_left (le_of_lt hlt)]
    omega

/-- C5 witness: four distinct-symbol candidates, one per risk level plus a
spare, reduced to 3 slots: the selection has exactly `min 3 4 = 3` entries
and no repeated symbol. -/
theorem selectTopPairs_spec_witness :
    (selectTopPairs
      [{ symbol := "A", riskLevel := "low", finalScore := 9/10, volumeScore := 1,
         volatilityScore := 1, atrScore := 1, correlationScore := 1 },
       { symbol := "B", riskLevel := "medium", finalScore := 8/10, volumeScore := 1,
         volatilityScore := 1, atrScore := 1, correlationScore := 1 },
       { symbol := "C", riskLevel := "high", finalScore := 7/10, volumeScore := 1,
         volatilityScore := 1, atrScore := 1, correlationScore := 1 },
       { symbol := "D", riskLevel := "high", finalScore := 6/10, volumeScore := 1,
         volatilityScore := 1, atrScore := 1, correlationScore := 1 }] 3).length = 3 := by
  have h := selectTopPairs_spec
    [{ symbol := "A", riskLevel := "low", finalScore := 9/10, volumeScore := 1,
       volatilityScore := 1, atrScore := 1, correlationScore := 1 },
     { symbol := "B", riskLevel := "medium", finalScore := 8/10, volumeScore := 1,
       volatilityScore := 1, atrScore := 1, correlationScore := 1 },
     { symbol := "C", riskLevel := "high", finalScore := 7/10, volumeScore := 1,
       volatilityScore := 1, atrScore := 1, correlationScore := 1 },
     { symbol := "D", riskLevel := "high", finalScore := 6/10, volumeScore := 1,
       volatilityScore := 1, atrScore := 1, correlationScore := 1 }] 3 (by simp)
  simpa using h.1

/-- C8: the Pearson correlation of `CalculateCorrelation` is symmetric,
`corr(x, y) = corr(y, x)`, and its absolute value never exceeds 1 (the
guard branches return 0, so both properties hold for all inputs and in
particular for equal-length non-empty series). -/
theorem calculateCorrelation_symm_abs_le_one (x y : List ℝ) :
    calculateCorrelation x y = calculateCorrelation y x ∧
    |calculateCorrelation x y| ≤ 1 := by
  constructor
  · by_cases hlen : x.length = y.length
    · by_cases hzero : x.length = 0
      · unfold calculateCorrelation
        rw [if_pos (Or.inr hzero), if_pos (Or.inr (hlen ▸ hzero))]
      · unfold calculateCorrelation
        rw [if_neg (show ¬ (x.length ≠ y.length ∨ x.length = 0) by
              push_neg; exact ⟨hlen, hzero⟩),
          if_neg (show ¬ (y.length ≠ x.length ∨ y.length = 0) by
              push_neg; exact ⟨hlen.symm, fun h => hzero (hlen ▸ h)⟩)]
        dsimp only
        rw [← hlen]
        have hnum : (∑ i in Finset.range x.length,
            (y.getD i 0 - (∑ j in Finset.range x.length, y.getD j 0) / (x.length : ℝ)) *
              (x.getD i 0 - (∑ j in Finset.range x.length, x.getD j 0) / (x.length : ℝ))) =
            ∑ i in Finset.range x.length,
            (x.getD i 0 - (∑ j in Finset.range x.length, x.getD j 0) / (x.length : ℝ)) *
              (y.getD i 0 - (∑ j in Finset.range x.length, y.getD j 0) / (x.length : ℝ)) :=
          Finset.sum_congr rfl fun i _ => mul_comm _ _
        rw [hnum, mul_comm
          (∑ i in Finset.range x.length,
            (y.getD i 0 - (∑ j in Finset.range x.length, y.getD j 0) / (x.length : ℝ)) *
              (y.getD i 0 - (∑ j in Finset.range x.length, y.getD j 0) / (x.length : ℝ)))
          (∑ i in Finset.range x.length,
            (x.getD i 0 - (∑ j in Finset.range x.length, x.getD j 0) / (x.length : ℝ)) *
              (x.getD i 0 - (∑ j in Finset.range x.length, x.getD j 0) / (x.length : ℝ)))]
        exact if_congr or_comm rfl rfl
    · unfold calculateCorrelation
      rw [if_pos (Or.inl hlen), if_pos (Or.inl (Ne.symm hlen))]
  · unfold calculateCorrelation
    by_cases h1 : x.length ≠ y.length ∨ x.length = 0
    · rw [if_pos h1]
      norm_num
    · rw [if_neg h1]
      dsimp only
      set mx := (∑ j in Finset.range x.length, x.getD j 0) / (x.length : ℝ) with hmx
      set my := (∑ j in Finset.range x.length, y.getD j 0) / (x.length : ℝ) with hmy
      set A := ∑ i in Finset.range x.length, (x.getD i 0 - mx) * (y.getD i 0 - my) with hA
      set B := ∑ i in Finset.range x.length, (x.getD i 0 - mx) * (x.getD i 0 - mx) with hB
      set C := ∑ i in Finset.range x.length, (y.getD i 0 - my) * (y.getD i 0 - my) with hC
      split_ifs with h2
      · norm_num
      push_neg at h2
      have hB0 : 0 ≤ B := Finset.sum_nonneg fun i _ => mul_self_nonneg _
      have hC0 : 0 ≤ C := Finset.sum_nonneg fun i _ => mul_self_nonneg _
      have hBpos : 0 < B := lt_of_le_of_ne hB0 (Ne.symm h2.1)
      have hCpos : 0 < C := lt_of_le_of_ne hC0 (Ne.symm h2.2)
      have hcs : A ^ 2 ≤ B * C := by
        have hBsq : B = ∑ i in Finset.range x.length, (x.getD i 0 - mx) ^ 2 :=
          Finset.sum_congr rfl fun i _ => (pow_two _).symm
        have hCsq : C = ∑ i in Finset.range x.length, (y.getD i 0 - my) ^ 2 :=
          Finset.sum_congr rfl fun i _ => (pow_two _).symm
        rw [hBsq, hCsq]
        exact Finset.sum_mul_sq_le_sq_mul_sq _ _ _
      have hsq : Real.sqrt (B * C) > 0 := Real.sqrt_pos.2 (mul_pos hBpos hCpos)
      rw [abs_div, abs_of_nonneg (Real.sqrt_nonneg _)]
      rw [div_le_one hsq]
      refine (Real.le_sqrt (abs_nonneg A) (le_of_lt (mul_pos hBpos hCpos))).2 ?_
      rw [sq_abs]
      exact hcs

end CryptoBot
